import Mathlib

/-!
# Serial port configuration on Darwin (`serial_darwin.go`)

A shallow embedding of `openPort`, `isTTY`, `getBaudRate`, `Port.Flush` and
`Port.Close`.
Machine words (`uint64` flag words and speeds) are natural numbers; the 64-bit
complement `^(uint64)(m)` and Go's bit-clear operator `&^` are spelled out
through `not64`.  Operating-system calls are resolved by an explicit record of
their outcomes, and the effect of a run on the descriptor is recorded in an
explicit state.
-/

namespace Serial

/-! ## Platform constants (`golang.org/x/sys/unix`, darwin) -/

namespace unix

/-- Input flag `BRKINT` (darwin). -/
def BRKINT : Nat := 0x2
/-- Input flag `ICRNL` (darwin). -/
def ICRNL : Nat := 0x100
/-- Input flag `INPCK` (darwin). -/
def INPCK : Nat := 0x10
/-- Input flag `ISTRIP` (darwin). -/
def ISTRIP : Nat := 0x20
/-- Input flag `IXOFF` (darwin). -/
def IXOFF : Nat := 0x400
/-- Input flag `IXON` (darwin). -/
def IXON : Nat := 0x200
/-- Input flag `PARMRK` (darwin). -/
def PARMRK : Nat := 0x8

/-- Control flag mask `CSIZE` (darwin). -/
def CSIZE : Nat := 0x300
/-- Control flag `CS5` (darwin). -/
def CS5 : Nat := 0x0
/-- Control flag `CS6` (darwin). -/
def CS6 : Nat := 0x100
/-- Control flag `CS7` (darwin). -/
def CS7 : Nat := 0x200
/-- Control flag `CS8` (darwin). -/
def CS8 : Nat := 0x300
/-- Control flag `CSTOPB` (darwin). -/
def CSTOPB : Nat := 0x400
/-- Control flag `CREAD` (darwin). -/
def CREAD : Nat := 0x800
/-- Control flag `PARENB` (darwin). -/
def PARENB : Nat := 0x1000
/-- Control flag `PARODD` (darwin). -/
def PARODD : Nat := 0x2000
/-- Control flag `CLOCAL` (darwin). -/
def CLOCAL : Nat := 0x8000

/-- Local flag `ICANON` (darwin). -/
def ICANON : Nat := 0x100
/-- Local flag `ECHO` (darwin). -/
def ECHO : Nat := 0x8
/-- Local flag `ECHOE` (darwin). -/
def ECHOE : Nat := 0x2
/-- Local flag `ISIG` (darwin). -/
def ISIG : Nat := 0x80

/-- Output flag `OPOST` (darwin). -/
def OPOST : Nat := 0x1

/-- Index of the `VMIN` control character (darwin). -/
def VMIN : Nat := 0x10
/-- Index of the `VTIME` control character (darwin). -/
def VTIME : Nat := 0x11

/-- Speed constant `B50` (darwin). -/
def B50 : Nat := 0x32
/-- Speed constant `B75` (darwin). -/
def B75 : Nat := 0x4b
/-- Speed constant `B110` (darwin). -/
def B110 : Nat := 0x6e
/-- Speed constant `B134` (darwin). -/
def B134 : Nat := 0x86
/-- Speed constant `B150` (darwin). -/
def B150 : Nat := 0x96
/-- Speed constant `B200` (darwin). -/
def B200 : Nat := 0xc8
/-- Speed constant `B300` (darwin). -/
def B300 : Nat := 0x12c
/-- Speed constant `B600` (darwin). -/
def B600 : Nat := 0x258
/-- Speed constant `B1200` (darwin). -/
def B1200 : Nat := 0x4b0
/-- Speed constant `B2400` (darwin). -/
def B2400 : Nat := 0x960
/-- Speed constant `B4800` (darwin). -/
def B4800 : Nat := 0x12c0
/-- Speed constant `B9600` (darwin). -/
def B9600 : Nat := 0x2580
/-- Speed constant `B19200` (darwin). -/
def B19200 : Nat := 0x4b00
/-- Speed constant `B38400` (darwin). -/
def B38400 : Nat := 0x9600
/-- Speed constant `B57600` (darwin). -/
def B57600 : Nat := 0xe100
/-- Speed constant `B115200` (darwin). -/
def B115200 : Nat := 0x1c200
/-- Speed constant `B230400` (darwin). -/
def B230400 : Nat := 0x38400

end unix

/-! ## Data model -/

/-- The 64-bit complement `^(uint64)(m)`. -/
def not64 (m : Nat) : Nat := (2 ^ 64 - 1) ^^^ (m % 2 ^ 64)

/-- The darwin `unix.Termios` record: four `uint64` flag words, twenty
control characters and two `uint64` speeds. -/
structure Termios where
  Iflag : Nat
  Oflag : Nat
  Cflag : Nat
  Lflag : Nat
  Cc : List Nat
  Ispeed : Nat
  Ospeed : Nat
deriving DecidableEq, Repr

/-- The baud-rate table of `getBaudRate`, in the order of the map literal. -/
def baudRates : List (Int × Nat) :=
  [ (50, unix.B50),
    (75, unix.B75),
    (110, unix.B110),
    (134, unix.B134),
    (150, unix.B150),
    (200, unix.B200),
    (300, unix.B300),
    (600, unix.B600),
    (1200, unix.B1200),
    (2400, unix.B2400),
    (4800, unix.B4800),
    (9600, unix.B9600),
    (19200, unix.B19200),
    (38400, unix.B38400),
    (57600, unix.B57600),
    (115200, unix.B115200),
    (230400, unix.B230400) ]

/-- The function `getBaudRate`: look the request up in the table, defaulting
to `B9600` when the key is absent. -/
def getBaudRate (baud : Int) : Nat :=
  match baudRates.lookup baud with
  | some speed => speed
  | none => unix.B9600

/-- Error values returned by `openPort`.  `os` wraps a failure reported by an
operating-system call (open, ioctl, fcntl), `notTTY` is the value built by
`errors.New("File is not a tty")`, and the three validation errors are the
package-level values `ErrBadSize`, `ErrBadParity` and `ErrBadStopBits`. -/
inductive Error where
  | os (code : Nat)
  | notTTY
  | ErrBadSize
  | ErrBadParity
  | ErrBadStopBits
deriving DecidableEq, Repr

/-- Declarations that `openPort` uses from the rest of the package: the
enumerators of `Parity` and `StopBits` (integer constants) and the function
`posixTimeoutValues`, which yields the `VMIN` and `VTIME` bytes. -/
structure Decls where
  ParityNone : Nat
  ParityOdd : Nat
  ParityEven : Nat
  Stop1 : Nat
  Stop2 : Nat
  posixTimeoutValues : Int → Nat × Nat

/-- The case constants of each `switch` are pairwise different (a Go
expression switch does not compile with duplicate constant cases). -/
def Decls.casesDistinct (d : Decls) : Prop :=
  d.ParityNone ≠ d.ParityOdd ∧ d.ParityNone ≠ d.ParityEven ∧
    d.ParityOdd ≠ d.ParityEven ∧ d.Stop1 ≠ d.Stop2

instance (d : Decls) : Decidable d.casesDistinct := by
  unfold Decls.casesDistinct; infer_instance

/-- Outcomes of the operating-system calls made during one run of `openPort`:
`os.OpenFile`, the `IoctlGetTermios` inside `isTTY`, the `IoctlGetTermios` of
`openPort`, `IoctlSetTermios` and `SetNonblock`.  A failure carries the
system error code; `none` in the last two means the call succeeded. -/
structure OSCalls where
  openFile : String → Except Nat Nat
  probeTermios : Except Nat Termios
  getTermios : Except Nat Termios
  setTermios : Option Nat
  setNonblock : Option Nat

/-- The type `Port`: a wrapper around the open file. -/
structure Port where
  f : Nat
deriving DecidableEq, Repr

/-- What one run of `openPort` has done to the descriptor and the device. -/
structure FileState where
  /-- `os.OpenFile` returned a descriptor. -/
  opened : Bool
  /-- `f.Close()` was called. -/
  closed : Bool
  /-- Attributes written to the device by a successful `IoctlSetTermios`. -/
  committed : Option Termios
  /-- `SetNonblock(fd, false)` succeeded. -/
  blocking : Bool
deriving DecidableEq, Repr

/-- State before `openPort` runs. -/
def FileState.init : FileState :=
  { opened := false, closed := false, committed := none, blocking := false }

/-- Effect of `f.Close()`. -/
def FileState.close (s : FileState) : FileState :=
  { s with closed := true }

/-- The pair returned by `openPort` together with the final state. -/
structure Outcome where
  port : Option Port
  err : Option Error
  state : FileState
deriving DecidableEq, Repr

/-- The `switch databits` statement of `openPort`, acting on `termios.Cflag`. -/
def applyDataBits (cflag : Nat) (databits : Nat) : Except Error Nat :=
  if databits = 5 then .ok (cflag ||| unix.CS5)
  else if databits = 6 then .ok (cflag ||| unix.CS6)
  else if databits = 7 then .ok (cflag ||| unix.CS7)
  else if databits = 8 then .ok (cflag ||| unix.CS8)
  else .error Error.ErrBadSize

/-- The `switch parity` statement of `openPort`, acting on `termios.Cflag`. -/
def applyParity (d : Decls) (cflag : Nat) (parity : Nat) : Except Error Nat :=
  if parity = d.ParityNone then .ok cflag
  else if parity = d.ParityOdd then .ok ((cflag ||| unix.PARENB) ||| unix.PARODD)
  else if parity = d.ParityEven then .ok ((cflag ||| unix.PARENB) &&& not64 unix.PARODD)
  else .error Error.ErrBadParity

/-- The `switch stopbits` statement of `openPort`, acting on `termios.Cflag`. -/
def applyStopBits (d : Decls) (cflag : Nat) (stopbits : Nat) : Except Error Nat :=
  if stopbits = d.Stop1 then .ok cflag
  else if stopbits = d.Stop2 then .ok (cflag ||| unix.CSTOPB)
  else .error Error.ErrBadStopBits

/-- The control-flag word after the three masking statements that follow the
attribute fetch in `openPort`. -/
def baseCflag (cflag : Nat) : Nat :=
  let cflag := cflag &&& not64 (unix.BRKINT ||| unix.ICRNL ||| unix.INPCK ||| unix.ISTRIP |||
    unix.IXOFF ||| unix.IXON ||| unix.PARMRK)
  let cflag := cflag &&& not64 (unix.CSIZE ||| unix.PARENB)
  cflag ||| (unix.CLOCAL ||| unix.CREAD)

/-- The part of `openPort` between the attribute fetch and the attribute
commit: it rewrites the fetched `termios` in place and stops at the first
failing validation, whose error `openPort` returns unchanged. -/
def configure (d : Decls) (termios : Termios) (baud : Int) (databits parity stopbits : Nat)
    (readTimeout : Int) : Except Error Termios :=
  let cflag := baseCflag termios.Cflag
  let speed := getBaudRate baud
  match applyDataBits cflag databits with
  | .error e => .error e
  | .ok cflag =>
    match applyParity d cflag parity with
    | .error e => .error e
    | .ok cflag =>
      match applyStopBits d cflag stopbits with
      | .error e => .error e
      | .ok cflag =>
        let lflag := termios.Lflag &&&
          not64 (unix.ICANON ||| unix.ECHO ||| unix.ECHOE ||| unix.ISIG)
        let oflag := termios.Oflag &&& not64 unix.OPOST
        let vt := d.posixTimeoutValues readTimeout
        let cc := (termios.Cc.set unix.VMIN vt.1).set unix.VTIME vt.2
        .ok { Iflag := termios.Iflag, Oflag := oflag, Cflag := cflag, Lflag := lflag,
              Cc := cc, Ispeed := speed, Ospeed := speed }

/-- The function `isTTY`: the attribute fetch on the descriptor succeeds. -/
def isTTY (os : OSCalls) (_fd : Nat) : Bool :=
  match os.probeTermios with
  | .ok _ => true
  | .error _ => false

/-- The function `openPort`.  Logging is left out: it does not influence the
results. -/
def openPort (d : Decls) (os : OSCalls) (name : String) (baud : Int)
    (databits parity stopbits : Nat) (readTimeout : Int) : Outcome :=
  match os.openFile name with
  | .error e => { port := none, err := some (Error.os e), state := FileState.init }
  | .ok fd =>
    let st : FileState := { FileState.init with opened := true }
    if !isTTY os fd then
      { port := none, err := some Error.notTTY, state := st.close }
    else
      match os.getTermios with
      | .error e => { port := none, err := some (Error.os e), state := st.close }
      | .ok termios =>
        match configure d termios baud databits parity stopbits readTimeout with
        | .error e => { port := none, err := some e, state := st }
        | .ok termios =>
          match os.setTermios with
          | some e => { port := none, err := some (Error.os e), state := st.close }
          | none =>
            let st : FileState := { st with committed := some termios }
            match os.setNonblock with
            | some e => { port := none, err := some (Error.os e), state := st.close }
            | none => { port := some { f := fd }, err := none,
                        state := { st with blocking := true } }

/-- The method `Port.Flush`: `Sync` is called, its result is dropped and `nil`
is returned.  `sync` gives the result of `f.Sync()` for a descriptor. -/
def Port.Flush (sync : Nat → Option Nat) (p : Port) : Option Error :=
  let _r := sync p.f
  none

/-! ## Predicates and sample data used in the statements -/

/-- The requests listed in the baud-rate table. -/
def supportedBauds : List Int :=
  [50, 75, 110, 134, 150, 200, 300, 600, 1200, 2400, 4800, 9600, 19200, 38400, 57600,
    115200, 230400]

/-- Data bits accepted by `openPort`. -/
def validDataBits (databits : Nat) : Prop :=
  databits = 5 ∨ databits = 6 ∨ databits = 7 ∨ databits = 8

/-- Parity values accepted by `openPort`. -/
def Decls.validParity (d : Decls) (parity : Nat) : Prop :=
  parity = d.ParityNone ∨ parity = d.ParityOdd ∨ parity = d.ParityEven

/-- Stop-bits values accepted by `openPort`. -/
def Decls.validStopBits (d : Decls) (stopbits : Nat) : Prop :=
  stopbits = d.Stop1 ∨ stopbits = d.Stop2

instance (databits : Nat) : Decidable (validDataBits databits) := by
  unfold validDataBits; infer_instance

instance (d : Decls) (parity : Nat) : Decidable (d.validParity parity) := by
  unfold Decls.validParity; infer_instance

instance (d : Decls) (stopbits : Nat) : Decidable (d.validStopBits stopbits) := by
  unfold Decls.validStopBits; infer_instance

/-- State after `os.OpenFile` succeeded and nothing else happened. -/
def FileState.opened1 : FileState := { FileState.init with opened := true }

/-- Sample package declarations: parity constants `'N'`, `'O'`, `'E'`, stop
bits 1 and 2, and a timeout translation in tenths of a second. -/
def sampleDecls : Decls :=
  { ParityNone := 78, ParityOdd := 79, ParityEven := 69, Stop1 := 1, Stop2 := 2,
    posixTimeoutValues := fun rt => (0, (rt / 100000000).toNat % 256) }

/-- Sample attributes of a terminal in cooked mode, with two stop bits and
odd parity switched on. -/
def sampleTermios : Termios :=
  { Iflag := 0x2b02, Oflag := 0x3, Cflag := 0x7f00, Lflag := 0x5cf,
    Cc := List.replicate 20 0, Ispeed := 9600, Ospeed := 9600 }

/-- Sample operating system in which every call succeeds. -/
def sampleOS : OSCalls :=
  { openFile := fun _ => .ok 3, probeTermios := .ok sampleTermios,
    getTermios := .ok sampleTermios, setTermios := none, setNonblock := none }

/-- The method `Port.Close`: the result of `f.Close()` is returned as it is.
`close` gives the result of `f.Close()` for a descriptor. -/
def Port.Close (close : Nat → Option Nat) (p : Port) : Option Error :=
  (close p.f).map Error.os

/-- A `Sync` that fails with error code 5 on every descriptor. -/
def failingSync : Nat → Option Nat := fun _ => some 5

/-- A `Close` that fails with error code 9 on every descriptor. -/
def failingClose : Nat → Option Nat := fun _ => some 9

/-! ## Baud-rate resolution -/

/-- C4: `getBaudRate` maps each of the seventeen listed rates to the platform
constant of that rate, and every other integer to `B9600`. -/
theorem getBaudRate_table :
    getBaudRate 50 = unix.B50 ∧ getBaudRate 75 = unix.B75 ∧ getBaudRate 110 = unix.B110 ∧
    getBaudRate 134 = unix.B134 ∧ getBaudRate 150 = unix.B150 ∧
    getBaudRate 200 = unix.B200 ∧ getBaudRate 300 = unix.B300 ∧
    getBaudRate 600 = unix.B600 ∧ getBaudRate 1200 = unix.B1200 ∧
    getBaudRate 2400 = unix.B2400 ∧ getBaudRate 4800 = unix.B4800 ∧
    getBaudRate 9600 = unix.B9600 ∧ getBaudRate 19200 = unix.B19200 ∧
    getBaudRate 38400 = unix.B38400 ∧ getBaudRate 57600 = unix.B57600 ∧
    getBaudRate 115200 = unix.B115200 ∧ getBaudRate 230400 = unix.B230400 ∧
    ∀ baud : Int, baud ∉ supportedBauds → getBaudRate baud = unix.B9600 := by
  refine ⟨rfl, rfl, rfl, rfl, rfl, rfl, rfl, rfl, rfl, rfl, rfl, rfl, rfl, rfl, rfl, rfl, rfl, ?_⟩
  intro baud h
  simp only [supportedBauds, List.mem_cons, List.mem_singleton, List.not_mem_nil, or_false,
    not_or] at h
  obtain ⟨h1, h2, h3, h4, h5, h6, h7, h8, h9, h10, h11, h12, h13, h14, h15, h16, h17⟩ := h
  have hb : ∀ k : Int, baud ≠ k → (baud == k) = false := fun k hk => beq_eq_false_iff_ne.mpr hk
  simp only [getBaudRate, baudRates, List.lookup, hb _ h1, hb _ h2, hb _ h3, hb _ h4, hb _ h5,
    hb _ h6, hb _ h7, hb _ h8, hb _ h9, hb _ h10, hb _ h11, hb _ h12, hb _ h13, hb _ h14,
    hb _ h15, hb _ h16, hb _ h17]

/-- Instance of C4 at requests outside the table: a large value, zero and a negative value. -/
theorem getBaudRate_table_witness :
    getBaudRate 999999 = unix.B9600 ∧ getBaudRate 0 = unix.B9600 ∧
      getBaudRate (-1) = unix.B9600 :=
  ⟨getBaudRate_table.2.2.2.2.2.2.2.2.2.2.2.2.2.2.2.2.2 999999 (by decide),
   getBaudRate_table.2.2.2.2.2.2.2.2.2.2.2.2.2.2.2.2.2 0 (by decide),
   getBaudRate_table.2.2.2.2.2.2.2.2.2.2.2.2.2.2.2.2.2 (-1) (by decide)⟩

/-! ## Bit-level facts about masking -/

theorem testBit_not64 (m i : Nat) :
    (not64 m).testBit i = (decide (i < 64) && !m.testBit i) := by
  simp only [not64, Nat.testBit_xor, Nat.testBit_two_pow_sub_one, Nat.testBit_mod_two_pow]
  cases decide (i < 64) <;> cases m.testBit i <;> rfl

theorem testBit_of_and_eq_zero {a m : Nat} (h : a &&& m = 0) (i : Nat) :
    (a.testBit i && m.testBit i) = false := by
  rw [← Nat.testBit_and, h, Nat.zero_testBit]

theorem testBit_high_of_lt {m : Nat} (hm : m < 2 ^ 64) {i : Nat} (hi : ¬ i < 64) :
    m.testBit i = false :=
  Nat.testBit_lt_two_pow (lt_of_lt_of_le hm (Nat.pow_le_pow_right (by norm_num) (not_lt.mp hi)))

/-- Setting bits outside a field leaves the field as it was. -/
theorem or_and_disjoint (x : Nat) {a m : Nat} (h : a &&& m = 0) :
    (x ||| a) &&& m = x &&& m := by
  rw [Nat.and_distrib_right, h, Nat.or_zero]

/-- Setting bits inside a field adds them to the field. -/
theorem or_and_within (x : Nat) {a m : Nat} (h : a &&& m = a) :
    (x ||| a) &&& m = (x &&& m) ||| a := by
  rw [Nat.and_distrib_right, h]

/-- Clearing bits outside a field leaves the field as it was. -/
theorem clear_and_disjoint (x : Nat) {a m : Nat} (h : a &&& m = 0) (hm : m < 2 ^ 64) :
    (x &&& not64 a) &&& m = x &&& m := by
  apply Nat.eq_of_testBit_eq
  intro i
  have h1 := testBit_of_and_eq_zero h i
  simp only [Nat.testBit_and, testBit_not64]
  by_cases hi : i < 64
  · simp only [hi, decide_True, Bool.true_and]
    cases hx : x.testBit i <;> cases ha : a.testBit i <;> cases hmi : m.testBit i <;>
      simp_all
  · simp [testBit_high_of_lt hm hi]

/-- Clearing a mask empties every field contained in the mask. -/
theorem clear_and_within (x : Nat) {a m : Nat} (h : a &&& m = m) (hm : m < 2 ^ 64) :
    (x &&& not64 a) &&& m = 0 := by
  apply Nat.eq_of_testBit_eq
  intro i
  have h1 : (a.testBit i && m.testBit i) = m.testBit i := by rw [← Nat.testBit_and, h]
  simp only [Nat.testBit_and, testBit_not64, Nat.zero_testBit]
  by_cases hi : i < 64
  · simp only [hi, decide_True, Bool.true_and]
    cases hx : x.testBit i <;> cases ha : a.testBit i <;> cases hmi : m.testBit i <;>
      simp_all
  · simp [testBit_high_of_lt hm hi]

/-- A bit that the mask does not contain survives the clearing of the mask. -/
theorem testBit_clear_of_not_mem (x : Nat) {a i : Nat} (hx : x < 2 ^ 64)
    (ha : a.testBit i = false) : (x &&& not64 a).testBit i = x.testBit i := by
  simp only [Nat.testBit_and, testBit_not64, ha]
  by_cases hi : i < 64
  · simp [hi]
  · simp [testBit_high_of_lt hx hi]

/-! ## The control-flag word, step by step -/

theorem baseCflag_and_CSIZE (c : Nat) : baseCflag c &&& unix.CSIZE = 0 := by
  unfold baseCflag
  rw [or_and_disjoint _ (by decide), clear_and_within _ (by decide) (by decide)]

theorem baseCflag_and_PARENB (c : Nat) : baseCflag c &&& unix.PARENB = 0 := by
  unfold baseCflag
  rw [or_and_disjoint _ (by decide), clear_and_within _ (by decide) (by decide)]

/-- The first masking statement clears bit `0x400` of the control-flag word,
which is `CSTOPB` as well as `IXOFF` on this platform. -/
theorem baseCflag_and_CSTOPB (c : Nat) : baseCflag c &&& unix.CSTOPB = 0 := by
  unfold baseCflag
  rw [or_and_disjoint _ (by decide), clear_and_disjoint _ (by decide) (by decide),
    clear_and_within _ (by decide) (by decide)]

theorem baseCflag_and_CLOCAL_CREAD (c : Nat) :
    baseCflag c &&& (unix.CLOCAL ||| unix.CREAD) = unix.CLOCAL ||| unix.CREAD := by
  unfold baseCflag
  rw [or_and_within _ (by decide), clear_and_disjoint _ (by decide) (by decide),
    clear_and_disjoint _ (by decide) (by decide)]
  apply Nat.eq_of_testBit_eq
  intro i
  simp only [Nat.testBit_or, Nat.testBit_and, testBit_not64]
  cases (unix.CLOCAL ||| unix.CREAD).testBit i <;> simp

/-- The data-bits switch succeeds exactly on 5, 6, 7 and 8. -/
theorem applyDataBits_eq (c databits : Nat) :
    (databits = 5 ∧ applyDataBits c databits = .ok (c ||| unix.CS5)) ∨
    (databits = 6 ∧ applyDataBits c databits = .ok (c ||| unix.CS6)) ∨
    (databits = 7 ∧ applyDataBits c databits = .ok (c ||| unix.CS7)) ∨
    (databits = 8 ∧ applyDataBits c databits = .ok (c ||| unix.CS8)) ∨
    ((databits ≠ 5 ∧ databits ≠ 6 ∧ databits ≠ 7 ∧ databits ≠ 8) ∧
      applyDataBits c databits = .error Error.ErrBadSize) := by
  unfold applyDataBits
  by_cases h5 : databits = 5
  · subst h5; simp
  by_cases h6 : databits = 6
  · subst h6; simp
  by_cases h7 : databits = 7
  · subst h7; simp
  by_cases h8 : databits = 8
  · subst h8; simp
  simp [h5, h6, h7, h8]

/-- The data-bits switch never reports another error than `ErrBadSize`, and
leaves every field outside `CSIZE` as it was. -/
theorem applyDataBits_preserves {c databits c1 : Nat} (h : applyDataBits c databits = .ok c1)
    {m : Nat} (hm : unix.CSIZE &&& m = 0) : c1 &&& m = c &&& m := by
  have e5 : unix.CS5 &&& m = 0 := by simp [unix.CS5]
  have e8 : unix.CS8 &&& m = 0 := hm
  have e6 : unix.CS6 &&& m = 0 := by
    apply Nat.eq_of_testBit_eq
    intro i
    have := testBit_of_and_eq_zero hm i
    have hs : unix.CS6.testBit i = true → unix.CSIZE.testBit i = true := by
      intro h6
      have : (unix.CS6 &&& unix.CSIZE).testBit i = true := by
        rw [show unix.CS6 &&& unix.CSIZE = unix.CS6 by decide]; exact h6
      simp only [Nat.testBit_and, Bool.and_eq_true] at this
      exact this.2
    simp only [Nat.testBit_and, Nat.zero_testBit]
    cases h6 : unix.CS6.testBit i <;> cases hmi : m.testBit i <;> simp_all
  have e7 : unix.CS7 &&& m = 0 := by
    apply Nat.eq_of_testBit_eq
    intro i
    have := testBit_of_and_eq_zero hm i
    have hs : unix.CS7.testBit i = true → unix.CSIZE.testBit i = true := by
      intro h7
      have : (unix.CS7 &&& unix.CSIZE).testBit i = true := by
        rw [show unix.CS7 &&& unix.CSIZE = unix.CS7 by decide]; exact h7
      simp only [Nat.testBit_and, Bool.and_eq_true] at this
      exact this.2
    simp only [Nat.testBit_and, Nat.zero_testBit]
    cases h7 : unix.CS7.testBit i <;> cases hmi : m.testBit i <;> simp_all
  rcases applyDataBits_eq c databits with h' | h' | h' | h' | h' <;>
    rw [h'.2] at h
  · cases h; exact or_and_disjoint _ e5
  · cases h; exact or_and_disjoint _ e6
  · cases h; exact or_and_disjoint _ e7
  · cases h; exact or_and_disjoint _ e8
  · cases h

/-- The parity switch, branch by branch (the first matching case is taken). -/
theorem applyParity_eq (d : Decls) (c parity : Nat) :
    (parity = d.ParityNone ∧ applyParity d c parity = .ok c) ∨
    (parity ≠ d.ParityNone ∧ parity = d.ParityOdd ∧
      applyParity d c parity = .ok ((c ||| unix.PARENB) ||| unix.PARODD)) ∨
    (parity ≠ d.ParityNone ∧ parity ≠ d.ParityOdd ∧ parity = d.ParityEven ∧
      applyParity d c parity = .ok ((c ||| unix.PARENB) &&& not64 unix.PARODD)) ∨
    (parity ≠ d.ParityNone ∧ parity ≠ d.ParityOdd ∧ parity ≠ d.ParityEven ∧
      applyParity d c parity = .error Error.ErrBadParity) := by
  unfold applyParity
  by_cases hn : parity = d.ParityNone
  · exact Or.inl ⟨hn, by rw [if_pos hn]⟩
  by_cases ho : parity = d.ParityOdd
  · exact Or.inr (Or.inl ⟨hn, ho, by rw [if_neg hn, if_pos ho]⟩)
  by_cases he : parity = d.ParityEven
  · exact Or.inr (Or.inr (Or.inl ⟨hn, ho, he, by rw [if_neg hn, if_neg ho, if_pos he]⟩))
  · exact Or.inr (Or.inr (Or.inr ⟨hn, ho, he, by rw [if_neg hn, if_neg ho, if_neg he]⟩))

/-- The parity switch leaves every field outside `PARENB` and `PARODD` as it was. -/
theorem applyParity_preserves {d : Decls} {c parity c1 : Nat}
    (h : applyParity d c parity = .ok c1) {m : Nat} (h1 : unix.PARENB &&& m = 0)
    (h2 : unix.PARODD &&& m = 0) (hm : m < 2 ^ 64) : c1 &&& m = c &&& m := by
  rcases applyParity_eq d c parity with h' | h' | h' | h'
  · rw [h'.2] at h; cases h; rfl
  · rw [h'.2.2] at h; cases h
    rw [or_and_disjoint _ h2, or_and_disjoint _ h1]
  · rw [h'.2.2.2] at h; cases h
    rw [clear_and_disjoint _ h2 hm, or_and_disjoint _ h1]
  · rw [h'.2.2.2] at h; cases h

/-- The stop-bits switch, branch by branch (the first matching case is taken). -/
theorem applyStopBits_eq (d : Decls) (c stopbits : Nat) :
    (stopbits = d.Stop1 ∧ applyStopBits d c stopbits = .ok c) ∨
    (stopbits ≠ d.Stop1 ∧ stopbits = d.Stop2 ∧
      applyStopBits d c stopbits = .ok (c ||| unix.CSTOPB)) ∨
    (stopbits ≠ d.Stop1 ∧ stopbits ≠ d.Stop2 ∧
      applyStopBits d c stopbits = .error Error.ErrBadStopBits) := by
  unfold applyStopBits
  by_cases h1 : stopbits = d.Stop1
  · exact Or.inl ⟨h1, by rw [if_pos h1]⟩
  by_cases h2 : stopbits = d.Stop2
  · exact Or.inr (Or.inl ⟨h1, h2, by rw [if_neg h1, if_pos h2]⟩)
  · exact Or.inr (Or.inr ⟨h1, h2, by rw [if_neg h1, if_neg h2]⟩)

/-- The stop-bits switch leaves every field outside `CSTOPB` as it was. -/
theorem applyStopBits_preserves {d : Decls} {c stopbits c1 : Nat}
    (h : applyStopBits d c stopbits = .ok c1) {m : Nat} (h1 : unix.CSTOPB &&& m = 0) :
    c1 &&& m = c &&& m := by
  rcases applyStopBits_eq d c stopbits with h' | h' | h'
  · rw [h'.2] at h; cases h; rfl
  · rw [h'.2.2] at h; cases h
    rw [or_and_disjoint _ h1]
  · rw [h'.2.2] at h; cases h

/-! ## The attribute computation as a whole -/

/-- A successful attribute computation went through the three switches in
order, and the record it yields is the fetched one with the control flags,
the raw-mode masks, the speeds and the two control characters replaced. -/
theorem configure_ok {d : Decls} {t0 t : Termios} {baud : Int}
    {databits parity stopbits : Nat} {readTimeout : Int}
    (h : configure d t0 baud databits parity stopbits readTimeout = .ok t) :
    ∃ c1 c2, applyDataBits (baseCflag t0.Cflag) databits = .ok c1 ∧
      applyParity d c1 parity = .ok c2 ∧
      applyStopBits d c2 stopbits = .ok t.Cflag ∧
      t.Iflag = t0.Iflag ∧
      t.Lflag = t0.Lflag &&& not64 (unix.ICANON ||| unix.ECHO ||| unix.ECHOE ||| unix.ISIG) ∧
      t.Oflag = t0.Oflag &&& not64 unix.OPOST ∧
      t.Ispeed = getBaudRate baud ∧ t.Ospeed = getBaudRate baud := by
  unfold configure at h
  simp only at h
  cases h1 : applyDataBits (baseCflag t0.Cflag) databits with
  | error e => rw [h1] at h; cases h
  | ok c1 =>
    rw [h1] at h
    simp only at h
    cases h2 : applyParity d c1 parity with
    | error e => rw [h2] at h; cases h
    | ok c2 =>
      rw [h2] at h
      simp only at h
      cases h3 : applyStopBits d c2 stopbits with
      | error e => rw [h3] at h; cases h
      | ok c3 =>
        rw [h3] at h
        simp only [Except.ok.injEq] at h
        subst h
        exact ⟨c1, c2, rfl, h2, h3, rfl, rfl, rfl, rfl, rfl⟩

/-- The attribute computation succeeds exactly when the three validated
fields are all in range. -/
theorem configure_isOk_iff (d : Decls) (t0 : Termios) (baud : Int)
    (databits parity stopbits : Nat) (readTimeout : Int) :
    (∃ t, configure d t0 baud databits parity stopbits readTimeout = .ok t) ↔
      validDataBits databits ∧ d.validParity parity ∧ d.validStopBits stopbits := by
  constructor
  · rintro ⟨t, h⟩
    obtain ⟨c1, c2, h1, h2, h3, -⟩ := configure_ok h
    refine ⟨?_, ?_, ?_⟩
    · rcases applyDataBits_eq (baseCflag t0.Cflag) databits with h' | h' | h' | h' | h'
      · exact Or.inl h'.1
      · exact Or.inr (Or.inl h'.1)
      · exact Or.inr (Or.inr (Or.inl h'.1))
      · exact Or.inr (Or.inr (Or.inr h'.1))
      · rw [h'.2] at h1; cases h1
    · rcases applyParity_eq d c1 parity with h' | h' | h' | h'
      · exact Or.inl h'.1
      · exact Or.inr (Or.inl h'.2.1)
      · exact Or.inr (Or.inr h'.2.2.1)
      · rw [h'.2.2.2] at h2; cases h2
    · rcases applyStopBits_eq d c2 stopbits with h' | h' | h'
      · exact Or.inl h'.1
      · exact Or.inr h'.2.1
      · rw [h'.2.2] at h3; cases h3
  · rintro ⟨hd, hp, hs⟩
    unfold configure
    simp only
    have e1 : ∃ c1, applyDataBits (baseCflag t0.Cflag) databits = .ok c1 := by
      rcases applyDataBits_eq (baseCflag t0.Cflag) databits with h' | h' | h' | h' | h'
      · exact ⟨_, h'.2⟩
      · exact ⟨_, h'.2⟩
      · exact ⟨_, h'.2⟩
      · exact ⟨_, h'.2⟩
      · rcases hd with hd | hd | hd | hd
        · exact absurd hd h'.1.1
        · exact absurd hd h'.1.2.1
        · exact absurd hd h'.1.2.2.1
        · exact absurd hd h'.1.2.2.2
    obtain ⟨c1, e1⟩ := e1
    have e2 : ∃ c2, applyParity d c1 parity = .ok c2 := by
      rcases applyParity_eq d c1 parity with h' | h' | h' | h'
      · exact ⟨_, h'.2⟩
      · exact ⟨_, h'.2.2⟩
      · exact ⟨_, h'.2.2.2⟩
      · rcases hp with hp | hp | hp
        · exact absurd hp h'.1
        · exact absurd hp h'.2.1
        · exact absurd hp h'.2.2.1
    obtain ⟨c2, e2⟩ := e2
    have e3 : ∃ c3, applyStopBits d c2 stopbits = .ok c3 := by
      rcases applyStopBits_eq d c2 stopbits with h' | h' | h'
      · exact ⟨_, h'.2⟩
      · exact ⟨_, h'.2.2⟩
      · rcases hs with hs | hs
        · exact absurd hs h'.1
        · exact absurd hs h'.2.1
    obtain ⟨c3, e3⟩ := e3
    rw [e1]; simp only
    rw [e2]; simp only
    rw [e3]
    exact ⟨_, rfl⟩

/-- A failing attribute computation reports the first validation that fails. -/
theorem configure_error {d : Decls} {t0 : Termios} {baud : Int}
    {databits parity stopbits : Nat} {readTimeout : Int} {e : Error}
    (h : configure d t0 baud databits parity stopbits readTimeout = .error e) :
    (e = Error.ErrBadSize ∧ ¬ validDataBits databits) ∨
    (e = Error.ErrBadParity ∧ validDataBits databits ∧ ¬ d.validParity parity) ∨
    (e = Error.ErrBadStopBits ∧ validDataBits databits ∧ d.validParity parity ∧
      ¬ d.validStopBits stopbits) := by
  unfold configure at h
  simp only at h
  rcases applyDataBits_eq (baseCflag t0.Cflag) databits with h1 | h1 | h1 | h1 | h1
  case inr.inr.inr.inr =>
    rw [h1.2] at h
    simp only [Except.error.injEq] at h
    subst h
    refine Or.inl ⟨rfl, ?_⟩
    rintro (hd | hd | hd | hd)
    · exact h1.1.1 hd
    · exact h1.1.2.1 hd
    · exact h1.1.2.2.1 hd
    · exact h1.1.2.2.2 hd
  all_goals
    have hd : validDataBits databits := by
      first
        | exact Or.inl h1.1
        | exact Or.inr (Or.inl h1.1)
        | exact Or.inr (Or.inr (Or.inl h1.1))
        | exact Or.inr (Or.inr (Or.inr h1.1))
    rw [h1.2] at h
    simp only at h
    rcases applyParity_eq d (baseCflag t0.Cflag ||| _) parity with h2 | h2 | h2 | h2
    case inr.inr.inr =>
      rw [h2.2.2.2] at h
      simp only [Except.error.injEq] at h
      subst h
      refine Or.inr (Or.inl ⟨rfl, hd, ?_⟩)
      rintro (hp | hp | hp)
      · exact h2.1 hp
      · exact h2.2.1 hp
      · exact h2.2.2.1 hp
    all_goals
      have hp : d.validParity parity := by
        first
          | exact Or.inl h2.1
          | exact Or.inr (Or.inl h2.2.1)
          | exact Or.inr (Or.inr h2.2.2.1)
      first
        | rw [h2.2] at h
        | rw [h2.2.2] at h
        | rw [h2.2.2.2] at h
      simp only at h
      rcases applyStopBits_eq d _ stopbits with h3 | h3 | h3
      · rw [h3.2] at h; cases h
      · rw [h3.2.2] at h; cases h
      · rw [h3.2.2] at h
        simp only [Except.error.injEq] at h
        subst h
        refine Or.inr (Or.inr ⟨rfl, hd, hp, ?_⟩)
        rintro (hs | hs)
        · exact h3.1 hs
        · exact h3.2.1 hs

/-! ## The runs of `openPort` -/

/-- Every run of `openPort` is one of seven: the open fails; the descriptor
is not a terminal; the attribute fetch fails; a validation fails; the commit
fails; the switch to blocking mode fails; or all steps succeed. -/
theorem openPort_cases (d : Decls) (os : OSCalls) (name : String) (baud : Int)
    (databits parity stopbits : Nat) (readTimeout : Int) :
    (∃ e, os.openFile name = .error e ∧
      openPort d os name baud databits parity stopbits readTimeout =
        { port := none, err := some (Error.os e), state := FileState.init }) ∨
    (∃ fd, os.openFile name = .ok fd ∧ isTTY os fd = false ∧
      openPort d os name baud databits parity stopbits readTimeout =
        { port := none, err := some Error.notTTY, state := FileState.opened1.close }) ∨
    (∃ fd e, os.openFile name = .ok fd ∧ isTTY os fd = true ∧ os.getTermios = .error e ∧
      openPort d os name baud databits parity stopbits readTimeout =
        { port := none, err := some (Error.os e), state := FileState.opened1.close }) ∨
    (∃ fd t0 e, os.openFile name = .ok fd ∧ isTTY os fd = true ∧ os.getTermios = .ok t0 ∧
      configure d t0 baud databits parity stopbits readTimeout = .error e ∧
      openPort d os name baud databits parity stopbits readTimeout =
        { port := none, err := some e, state := FileState.opened1 }) ∨
    (∃ fd t0 t e, os.openFile name = .ok fd ∧ isTTY os fd = true ∧ os.getTermios = .ok t0 ∧
      configure d t0 baud databits parity stopbits readTimeout = .ok t ∧
      os.setTermios = some e ∧
      openPort d os name baud databits parity stopbits readTimeout =
        { port := none, err := some (Error.os e), state := FileState.opened1.close }) ∨
    (∃ fd t0 t e, os.openFile name = .ok fd ∧ isTTY os fd = true ∧ os.getTermios = .ok t0 ∧
      configure d t0 baud databits parity stopbits readTimeout = .ok t ∧
      os.setTermios = none ∧ os.setNonblock = some e ∧
      openPort d os name baud databits parity stopbits readTimeout =
        { port := none, err := some (Error.os e),
          state := { FileState.opened1 with committed := some t, closed := true } }) ∨
    (∃ fd t0 t, os.openFile name = .ok fd ∧ isTTY os fd = true ∧ os.getTermios = .ok t0 ∧
      configure d t0 baud databits parity stopbits readTimeout = .ok t ∧
      os.setTermios = none ∧ os.setNonblock = none ∧
      openPort d os name baud databits parity stopbits readTimeout =
        { port := some { f := fd }, err := none,
          state := { FileState.opened1 with committed := some t, blocking := true } }) := by
  rcases hopen : os.openFile name with e | fd
  · refine Or.inl ⟨e, ?_, ?_⟩
    · rfl
    · simp [openPort, hopen]
  right
  rcases htty : isTTY os fd with _ | _
  · refine Or.inl ⟨fd, ?_, ?_, ?_⟩
    · rfl
    · assumption
    · simp [openPort, hopen, htty, FileState.opened1]
  right
  rcases hget : os.getTermios with e | t0
  · refine Or.inl ⟨fd, e, ?_, ?_, ?_, ?_⟩
    · rfl
    · assumption
    · rfl
    · simp [openPort, hopen, htty, hget, FileState.opened1]
  right
  rcases hcfg : configure d t0 baud databits parity stopbits readTimeout with e | t
  · refine Or.inl ⟨fd, t0, e, ?_, ?_, ?_, ?_, ?_⟩
    · rfl
    · assumption
    · rfl
    · assumption
    · simp [openPort, hopen, htty, hget, hcfg, FileState.opened1]
  right
  rcases hset : os.setTermios with _ | e
  swap
  · refine Or.inl ⟨fd, t0, t, e, ?_, ?_, ?_, ?_, ?_, ?_⟩
    · rfl
    · assumption
    · rfl
    · assumption
    · rfl
    · simp [openPort, hopen, htty, hget, hcfg, hset, FileState.opened1]
  right
  rcases hnb : os.setNonblock with _ | e
  swap
  · refine Or.inl ⟨fd, t0, t, e, ?_, ?_, ?_, ?_, ?_, ?_, ?_⟩
    · rfl
    · assumption
    · rfl
    · assumption
    · rfl
    · rfl
    · simp [openPort, hopen, htty, hget, hcfg, hset, hnb, FileState.opened1, FileState.close]
  · refine Or.inr ⟨fd, t0, t, ?_, ?_, ?_, ?_, ?_, ?_, ?_⟩
    · rfl
    · assumption
    · rfl
    · assumption
    · rfl
    · rfl
    · simp [openPort, hopen, htty, hget, hcfg, hset, hnb, FileState.opened1]

/-- Once the attributes were fetched, the run is decided by the attribute
computation: its error is returned with the descriptor untouched. -/
theorem openPort_of_configure_error {d : Decls} {os : OSCalls} {name : String} {baud : Int}
    {databits parity stopbits : Nat} {readTimeout : Int} {fd : Nat} {t0 : Termios} {e : Error}
    (hopen : os.openFile name = .ok fd) (htty : isTTY os fd = true)
    (hget : os.getTermios = .ok t0)
    (hcfg : configure d t0 baud databits parity stopbits readTimeout = .error e) :
    openPort d os name baud databits parity stopbits readTimeout =
      { port := none, err := some e, state := FileState.opened1 } := by
  unfold openPort
  simp [hopen, htty, hget, hcfg, FileState.opened1]

/-- Once the attributes were fetched and computed, the run never reports a
validation error, and commits the computed record when the commit succeeds. -/
theorem openPort_of_configure_ok {d : Decls} {os : OSCalls} {name : String} {baud : Int}
    {databits parity stopbits : Nat} {readTimeout : Int} {fd : Nat} {t0 t : Termios}
    (hopen : os.openFile name = .ok fd) (htty : isTTY os fd = true)
    (hget : os.getTermios = .ok t0)
    (hcfg : configure d t0 baud databits parity stopbits readTimeout = .ok t) :
    ((openPort d os name baud databits parity stopbits readTimeout).err = none ∨
      ∃ e, (openPort d os name baud databits parity stopbits readTimeout).err =
        some (Error.os e)) ∧
    (os.setTermios = none →
      (openPort d os name baud databits parity stopbits readTimeout).state.committed =
        some t) ∧
    (os.setTermios = none → os.setNonblock = none →
      (openPort d os name baud databits parity stopbits readTimeout).port =
        some { f := fd }) := by
  rcases hset : os.setTermios with _ | e
  swap
  · simp [openPort, hopen, htty, hget, hcfg, hset]
  rcases hnb : os.setNonblock with _ | e
  · simp [openPort, hopen, htty, hget, hcfg, hset, hnb]
  · simp [openPort, hopen, htty, hget, hcfg, hset, hnb, FileState.close]

/-- Attributes reach the device only as the result of the attribute
computation on the fetched record. -/
theorem openPort_committed_inv {d : Decls} {os : OSCalls} {name : String} {baud : Int}
    {databits parity stopbits : Nat} {readTimeout : Int} {t0 t : Termios}
    (hget : os.getTermios = .ok t0)
    (h : (openPort d os name baud databits parity stopbits readTimeout).state.committed =
      some t) :
    configure d t0 baud databits parity stopbits readTimeout = .ok t := by
  rcases openPort_cases d os name baud databits parity stopbits readTimeout with
    ⟨e, _, hr⟩ | ⟨fd1, _, _, hr⟩ | ⟨fd1, e, _, _, _, hr⟩ | ⟨fd1, t1, e, _, _, _, _, hr⟩ |
    ⟨fd1, t1, t2, e, _, _, _, _, _, hr⟩ | ⟨fd1, t1, t2, e, _, _, hg, hc, _, _, hr⟩ |
    ⟨fd1, t1, t2, _, _, hg, hc, _, _, hr⟩
  all_goals rw [hr] at h
  all_goals first
    | (simp [FileState.init, FileState.opened1, FileState.close] at h; done)
    | (simp only [FileState.opened1, FileState.init, Option.some.injEq] at h
       rw [hget] at hg
       cases hg
       rw [← h]; exact hc)

/-- Sets a mask over a field that lies inside the mask. -/
theorem and_or_self (x m : Nat) : (x &&& m) ||| m = m := by
  apply Nat.eq_of_testBit_eq
  intro i
  simp only [Nat.testBit_or, Nat.testBit_and]
  cases x.testBit i <;> cases m.testBit i <;> rfl

/-- The `CSIZE` field of a computed record is the one the data-bits switch wrote. -/
theorem configure_CSIZE {d : Decls} {t0 t : Termios} {baud : Int}
    {databits parity stopbits : Nat} {readTimeout : Int} {cs : Nat}
    (h : configure d t0 baud databits parity stopbits readTimeout = .ok t)
    (h1 : applyDataBits (baseCflag t0.Cflag) databits = .ok (baseCflag t0.Cflag ||| cs))
    (hcs : cs &&& unix.CSIZE = cs) : t.Cflag &&& unix.CSIZE = cs := by
  obtain ⟨c1, c2, e1, e2, e3, -⟩ := configure_ok h
  rw [h1] at e1
  cases e1
  rw [applyStopBits_preserves e3 (by decide),
    applyParity_preserves e2 (by decide) (by decide) (by decide),
    or_and_within _ hcs, baseCflag_and_CSIZE, Nat.zero_or]

/-- C1: once the attributes were fetched, data bits 5, 6, 7 and 8 never make
`openPort` fail with `ErrBadSize`: with a valid parity and stop-bits value
`openPort` computes a record whose `CSIZE` field is `CS5`, `CS6`, `CS7` or
`CS8` respectively, commits that record when the commit succeeds and returns
a `Port` when the switch to blocking mode succeeds as well, and otherwise it
returns `ErrBadParity` or `ErrBadStopBits`; the data-bits switch writes the
field and no later step changes it, in the computed and in any committed
record.  Every other data-bits value makes `openPort` return `ErrBadSize` and
no `Port`, with nothing committed. -/
theorem openPort_character_size (d : Decls) (os : OSCalls) (name : String) (baud : Int)
    (databits parity stopbits : Nat) (readTimeout : Int) (fd : Nat) (t0 : Termios)
    (hopen : os.openFile name = .ok fd) (htty : isTTY os fd = true)
    (hget : os.getTermios = .ok t0) :
    (∀ cs : Nat,
      ((databits = 5 ∧ cs = unix.CS5) ∨ (databits = 6 ∧ cs = unix.CS6) ∨
        (databits = 7 ∧ cs = unix.CS7) ∨ (databits = 8 ∧ cs = unix.CS8)) →
      (openPort d os name baud databits parity stopbits readTimeout).err ≠
        some Error.ErrBadSize ∧
      (∃ c1, applyDataBits (baseCflag t0.Cflag) databits = .ok c1 ∧
        c1 &&& unix.CSIZE = cs) ∧
      (∀ t, configure d t0 baud databits parity stopbits readTimeout = .ok t →
        t.Cflag &&& unix.CSIZE = cs) ∧
      (∀ t, (openPort d os name baud databits parity stopbits readTimeout).state.committed =
        some t → t.Cflag &&& unix.CSIZE = cs) ∧
      (d.validParity parity → d.validStopBits stopbits →
        ∃ t, configure d t0 baud databits parity stopbits readTimeout = .ok t ∧
          t.Cflag &&& unix.CSIZE = cs ∧
          (os.setTermios = none →
            (openPort d os name baud databits parity stopbits readTimeout).state.committed =
              some t) ∧
          (os.setTermios = none → os.setNonblock = none →
            (openPort d os name baud databits parity stopbits readTimeout).port =
              some { f := fd })) ∧
      (¬ d.validParity parity →
        (openPort d os name baud databits parity stopbits readTimeout).port = none ∧
        (openPort d os name baud databits parity stopbits readTimeout).err =
          some Error.ErrBadParity) ∧
      (d.validParity parity → ¬ d.validStopBits stopbits →
        (openPort d os name baud databits parity stopbits readTimeout).port = none ∧
        (openPort d os name baud databits parity stopbits readTimeout).err =
          some Error.ErrBadStopBits)) ∧
    (¬ validDataBits databits →
      (openPort d os name baud databits parity stopbits readTimeout).port = none ∧
      (openPort d os name baud databits parity stopbits readTimeout).err =
        some Error.ErrBadSize ∧
      (openPort d os name baud databits parity stopbits readTimeout).state.committed =
        none) := by
  constructor
  · intro cs hcs
    have hv : validDataBits databits := by
      rcases hcs with h | h | h | h
      · exact Or.inl h.1
      · exact Or.inr (Or.inl h.1)
      · exact Or.inr (Or.inr (Or.inl h.1))
      · exact Or.inr (Or.inr (Or.inr h.1))
    have h1 : applyDataBits (baseCflag t0.Cflag) databits = .ok (baseCflag t0.Cflag ||| cs) ∧
        cs &&& unix.CSIZE = cs := by
      rcases hcs with ⟨rfl, rfl⟩ | ⟨rfl, rfl⟩ | ⟨rfl, rfl⟩ | ⟨rfl, rfl⟩ <;>
        exact ⟨by simp [applyDataBits], by decide⟩
    have hcfg : ∀ t, configure d t0 baud databits parity stopbits readTimeout = .ok t →
        t.Cflag &&& unix.CSIZE = cs := fun t ht => configure_CSIZE ht h1.1 h1.2
    refine ⟨?_, ⟨_, h1.1, ?_⟩, hcfg, ?_, ?_, ?_, ?_⟩
    · rcases hc : configure d t0 baud databits parity stopbits readTimeout with e | t
      · rw [openPort_of_configure_error hopen htty hget hc]
        rcases configure_error hc with h | h | h
        · exact absurd hv h.2
        · rw [h.1]; simp
        · rw [h.1]; simp
      · rcases (openPort_of_configure_ok hopen htty hget hc).1 with h | ⟨e, h⟩ <;>
          rw [h] <;> simp
    · rw [or_and_within _ h1.2, baseCflag_and_CSIZE, Nat.zero_or]
    · intro t ht
      exact hcfg t (openPort_committed_inv hget ht)
    · intro hp hs
      obtain ⟨t, hc⟩ := (configure_isOk_iff d t0 baud databits parity stopbits readTimeout).2
        ⟨hv, hp, hs⟩
      have hr := openPort_of_configure_ok hopen htty hget hc
      exact ⟨t, hc, hcfg t hc, hr.2.1, hr.2.2⟩
    · intro hp
      rcases hc : configure d t0 baud databits parity stopbits readTimeout with e | t
      · rw [openPort_of_configure_error hopen htty hget hc]
        rcases configure_error hc with h | h | h
        · exact absurd hv h.2
        · rw [h.1]; exact ⟨rfl, rfl⟩
        · exact absurd h.2.2.1 hp
      · exact absurd ((configure_isOk_iff d t0 baud databits parity stopbits readTimeout).1
          ⟨t, hc⟩).2.1 hp
    · intro hp hs
      rcases hc : configure d t0 baud databits parity stopbits readTimeout with e | t
      · rw [openPort_of_configure_error hopen htty hget hc]
        rcases configure_error hc with h | h | h
        · exact absurd hv h.2
        · exact absurd hp h.2.2
        · rw [h.1]; exact ⟨rfl, rfl⟩
      · exact absurd ((configure_isOk_iff d t0 baud databits parity stopbits readTimeout).1
          ⟨t, hc⟩).2.2 hs
  · intro hv
    rcases hc : configure d t0 baud databits parity stopbits readTimeout with e | t
    · rw [openPort_of_configure_error hopen htty hget hc]
      rcases configure_error hc with h | h | h
      · rw [h.1]; exact ⟨rfl, rfl, rfl⟩
      · exact absurd h.2.1 hv
      · exact absurd h.2.1 hv
    · exact absurd ((configure_isOk_iff d t0 baud databits parity stopbits readTimeout).1
        ⟨t, hc⟩).1 hv

/-- Instance of C1 on the sample device, whose fetched control flags hold
`CS8`: with seven data bits `openPort` returns a `Port` and the committed
control flags hold `CS7` in the `CSIZE` field; with nine data bits it returns
`ErrBadSize`, no `Port`, and commits nothing. -/
theorem openPort_character_size_witness :
    sampleOS.openFile "/dev/cu.usbserial" = .ok 3 ∧ isTTY sampleOS 3 = true ∧
    sampleOS.getTermios = .ok sampleTermios ∧
    sampleTermios.Cflag &&& unix.CSIZE = unix.CS8 ∧
    (openPort sampleDecls sampleOS "/dev/cu.usbserial" 115200 7 78 1 0).port =
      some { f := 3 } ∧
    (openPort sampleDecls sampleOS "/dev/cu.usbserial" 115200 7 78 1 0).state.committed.map
      (fun t => t.Cflag &&& unix.CSIZE) = some unix.CS7 ∧
    ((openPort sampleDecls sampleOS "/dev/cu.usbserial" 115200 9 78 1 0).port = none ∧
      (openPort sampleDecls sampleOS "/dev/cu.usbserial" 115200 9 78 1 0).err =
        some Error.ErrBadSize ∧
      (openPort sampleDecls sampleOS "/dev/cu.usbserial" 115200 9 78 1 0).state.committed =
        none) :=
  ⟨rfl, rfl, rfl, by decide,
   match ((openPort_character_size sampleDecls sampleOS "/dev/cu.usbserial" 115200 7 78 1 0 3
      sampleTermios rfl rfl rfl).1 unix.CS7 (by decide)).2.2.2.2.1 (by decide) (by decide) with
   | ⟨_, _, _, _, hport⟩ => hport rfl rfl,
   match ((openPort_character_size sampleDecls sampleOS "/dev/cu.usbserial" 115200 7 78 1 0 3
      sampleTermios rfl rfl rfl).1 unix.CS7 (by decide)).2.2.2.2.1 (by decide) (by decide) with
   | ⟨_, _, hcs, hcm, _⟩ => by rw [hcm rfl, Option.map_some', hcs],
   (openPort_character_size sampleDecls sampleOS "/dev/cu.usbserial" 115200 9 78 1 0 3
      sampleTermios rfl rfl rfl).2 (by decide)⟩

/-- C2: once the attributes were fetched, with valid data bits and stop bits,
a valid parity lets `openPort` compute a record, which is the one committed
when the commit succeeds, and whose control flags have `PARENB` set and
`PARODD` clear for `ParityEven`, both set for `ParityOdd`, and `PARENB` clear
for `ParityNone`; every other parity value makes `openPort` return
`ErrBadParity` and no `Port`. -/
theorem openPort_parity (d : Decls) (os : OSCalls) (name : String) (baud : Int)
    (databits parity stopbits : Nat) (readTimeout : Int) (fd : Nat) (t0 : Termios)
    (hd : d.casesDistinct)
    (hopen : os.openFile name = .ok fd) (htty : isTTY os fd = true)
    (hget : os.getTermios = .ok t0)
    (hdb : validDataBits databits) (hsb : d.validStopBits stopbits) :
    (d.validParity parity →
      ∃ t, configure d t0 baud databits parity stopbits readTimeout = .ok t ∧
        (os.setTermios = none →
          (openPort d os name baud databits parity stopbits readTimeout).state.committed =
            some t) ∧
        (parity = d.ParityEven →
          t.Cflag &&& unix.PARENB = unix.PARENB ∧ t.Cflag &&& unix.PARODD = 0) ∧
        (parity = d.ParityOdd →
          t.Cflag &&& unix.PARENB = unix.PARENB ∧ t.Cflag &&& unix.PARODD = unix.PARODD) ∧
        (parity = d.ParityNone → t.Cflag &&& unix.PARENB = 0)) ∧
    (¬ d.validParity parity →
      (openPort d os name baud databits parity stopbits readTimeout).port = none ∧
      (openPort d os name baud databits parity stopbits readTimeout).err =
        some Error.ErrBadParity) := by
  obtain ⟨hno, hne, hoe, -⟩ := hd
  constructor
  · intro hp
    obtain ⟨t, hc⟩ := (configure_isOk_iff d t0 baud databits parity stopbits readTimeout).2
      ⟨hdb, hp, hsb⟩
    refine ⟨t, hc, (openPort_of_configure_ok hopen htty hget hc).2.1, ?_⟩
    obtain ⟨c1, c2, e1, e2, e3, -⟩ := configure_ok hc
    have b1 : c1 &&& unix.PARENB = 0 := by
      rw [applyDataBits_preserves e1 (by decide), baseCflag_and_PARENB]
    have s1 : t.Cflag &&& unix.PARENB = c2 &&& unix.PARENB :=
      applyStopBits_preserves e3 (by decide)
    have s2 : t.Cflag &&& unix.PARODD = c2 &&& unix.PARODD :=
      applyStopBits_preserves e3 (by decide)
    rw [s1, s2]
    rcases applyParity_eq d c1 parity with h | h | h | h
    · rw [h.2] at e2; cases e2
      refine ⟨fun he => absurd (h.1.symm.trans he) hne, fun ho => absurd (h.1.symm.trans ho) hno,
        fun _ => b1⟩
    · rw [h.2.2] at e2; cases e2
      refine ⟨fun he => absurd (h.2.1.symm.trans he) hoe, fun _ => ⟨?_, ?_⟩,
        fun hn => absurd hn h.1⟩
      · rw [or_and_disjoint _ (by decide), or_and_within _ (by decide), and_or_self]
      · rw [or_and_within _ (by decide), and_or_self]
    · rw [h.2.2.2] at e2; cases e2
      refine ⟨fun _ => ⟨?_, ?_⟩, fun ho => absurd ho h.2.1, fun hn => absurd hn h.1⟩
      · rw [clear_and_disjoint _ (by decide) (by decide), or_and_within _ (by decide),
          and_or_self]
      · exact clear_and_within _ (by decide) (by decide)
    · rw [h.2.2.2] at e2; cases e2
  · intro hp
    rcases hc : configure d t0 baud databits parity stopbits readTimeout with e | t
    · rw [openPort_of_configure_error hopen htty hget hc]
      rcases configure_error hc with h | h | h
      · exact absurd hdb h.2
      · rw [h.1]; exact ⟨rfl, rfl⟩
      · exact absurd h.2.2.1 hp
    · exact absurd ((configure_isOk_iff d t0 baud databits parity stopbits readTimeout).1
        ⟨t, hc⟩).2.1 hp

/-- Instance of C2 on the sample device, whose fetched control flags have
`PARENB` and `PARODD` set: even parity is accepted and a parity value of 77
is rejected. -/
theorem openPort_parity_witness :
    sampleDecls.casesDistinct ∧
    sampleOS.openFile "/dev/cu.usbserial" = .ok 3 ∧ isTTY sampleOS 3 = true ∧
    sampleOS.getTermios = .ok sampleTermios ∧
    validDataBits 8 ∧ sampleDecls.validStopBits 1 ∧
    (∃ t, configure sampleDecls sampleTermios 115200 8 69 1 0 = .ok t ∧
        (sampleOS.setTermios = none →
          (openPort sampleDecls sampleOS "/dev/cu.usbserial" 115200 8 69 1 0).state.committed =
            some t) ∧
        (69 = sampleDecls.ParityEven →
          t.Cflag &&& unix.PARENB = unix.PARENB ∧ t.Cflag &&& unix.PARODD = 0) ∧
        (69 = sampleDecls.ParityOdd →
          t.Cflag &&& unix.PARENB = unix.PARENB ∧ t.Cflag &&& unix.PARODD = unix.PARODD) ∧
        (69 = sampleDecls.ParityNone → t.Cflag &&& unix.PARENB = 0)) ∧
    ((openPort sampleDecls sampleOS "/dev/cu.usbserial" 115200 8 77 1 0).port = none ∧
      (openPort sampleDecls sampleOS "/dev/cu.usbserial" 115200 8 77 1 0).err =
        some Error.ErrBadParity) :=
  ⟨by decide, rfl, rfl, rfl, by decide, by decide,
   (openPort_parity sampleDecls sampleOS "/dev/cu.usbserial" 115200 8 69 1 0 3 sampleTermios
      (by decide) rfl rfl rfl (by decide) (by decide)).1 (by decide),
   (openPort_parity sampleDecls sampleOS "/dev/cu.usbserial" 115200 8 77 1 0 3 sampleTermios
      (by decide) rfl rfl rfl (by decide) (by decide)).2 (by decide)⟩

/-- C3: once the attributes were fetched, whatever they are, with valid data
bits and parity, a valid stop-bits value lets `openPort` compute a record,
which is the one committed when the commit succeeds, and whose control flags
have `CSTOPB` set for `Stop2` and clear for `Stop1`; every other stop-bits
value makes `openPort` return `ErrBadStopBits` and no `Port`. -/
theorem openPort_stop_bits (d : Decls) (os : OSCalls) (name : String) (baud : Int)
    (databits parity stopbits : Nat) (readTimeout : Int) (fd : Nat) (t0 : Termios)
    (hd : d.casesDistinct)
    (hopen : os.openFile name = .ok fd) (htty : isTTY os fd = true)
    (hget : os.getTermios = .ok t0)
    (hdb : validDataBits databits) (hpa : d.validParity parity) :
    (d.validStopBits stopbits →
      ∃ t, configure d t0 baud databits parity stopbits readTimeout = .ok t ∧
        (os.setTermios = none →
          (openPort d os name baud databits parity stopbits readTimeout).state.committed =
            some t) ∧
        (stopbits = d.Stop2 → t.Cflag &&& unix.CSTOPB = unix.CSTOPB) ∧
        (stopbits = d.Stop1 → t.Cflag &&& unix.CSTOPB = 0)) ∧
    (¬ d.validStopBits stopbits →
      (openPort d os name baud databits parity stopbits readTimeout).port = none ∧
      (openPort d os name baud databits parity stopbits readTimeout).err =
        some Error.ErrBadStopBits) := by
  obtain ⟨-, -, -, h12⟩ := hd
  constructor
  · intro hs
    obtain ⟨t, hc⟩ := (configure_isOk_iff d t0 baud databits parity stopbits readTimeout).2
      ⟨hdb, hpa, hs⟩
    refine ⟨t, hc, (openPort_of_configure_ok hopen htty hget hc).2.1, ?_⟩
    obtain ⟨c1, c2, e1, e2, e3, -⟩ := configure_ok hc
    have b2 : c2 &&& unix.CSTOPB = 0 := by
      rw [applyParity_preserves e2 (by decide) (by decide) (by decide),
        applyDataBits_preserves e1 (by decide), baseCflag_and_CSTOPB]
    rcases applyStopBits_eq d c2 stopbits with h | h | h
    · rw [h.2] at e3; cases e3
      exact ⟨fun h2 => absurd (h.1.symm.trans h2) h12, fun _ => b2⟩
    · rw [h.2.2] at e3
      simp only [Except.ok.injEq] at e3
      rw [← e3]
      refine ⟨fun _ => ?_, fun h1 => absurd h1 h.1⟩
      rw [or_and_within _ (by decide), and_or_self]
    · rw [h.2.2] at e3; cases e3
  · intro hs
    rcases hc : configure d t0 baud databits parity stopbits readTimeout with e | t
    · rw [openPort_of_configure_error hopen htty hget hc]
      rcases configure_error hc with h | h | h
      · exact absurd hdb h.2
      · exact absurd hpa h.2.2
      · rw [h.1]; exact ⟨rfl, rfl⟩
    · exact absurd ((configure_isOk_iff d t0 baud databits parity stopbits readTimeout).1
        ⟨t, hc⟩).2.2 hs

/-- Instance of C3 on the sample device, whose fetched control flags have
`CSTOPB` set: one stop bit is accepted and a stop-bits value of 15 is
rejected. -/
theorem openPort_stop_bits_witness :
    sampleDecls.casesDistinct ∧
    sampleOS.openFile "/dev/cu.usbserial" = .ok 3 ∧ isTTY sampleOS 3 = true ∧
    sampleOS.getTermios = .ok sampleTermios ∧
    validDataBits 8 ∧ sampleDecls.validParity 78 ∧
    (∃ t, configure sampleDecls sampleTermios 115200 8 78 1 0 = .ok t ∧
        (sampleOS.setTermios = none →
          (openPort sampleDecls sampleOS "/dev/cu.usbserial" 115200 8 78 1 0).state.committed =
            some t) ∧
        (1 = sampleDecls.Stop2 → t.Cflag &&& unix.CSTOPB = unix.CSTOPB) ∧
        (1 = sampleDecls.Stop1 → t.Cflag &&& unix.CSTOPB = 0)) ∧
    ((openPort sampleDecls sampleOS "/dev/cu.usbserial" 115200 8 78 15 0).port = none ∧
      (openPort sampleDecls sampleOS "/dev/cu.usbserial" 115200 8 78 15 0).err =
        some Error.ErrBadStopBits) :=
  ⟨by decide, rfl, rfl, rfl, by decide, by decide,
   (openPort_stop_bits sampleDecls sampleOS "/dev/cu.usbserial" 115200 8 78 1 0 3
      sampleTermios (by decide) rfl rfl rfl (by decide) (by decide)).1 (by decide),
   (openPort_stop_bits sampleDecls sampleOS "/dev/cu.usbserial" 115200 8 78 15 0 3
      sampleTermios (by decide) rfl rfl rfl (by decide) (by decide)).2 (by decide)⟩

/-- A `Port` is returned only by the run in which every step succeeds. -/
theorem openPort_success {d : Decls} {os : OSCalls} {name : String} {baud : Int}
    {databits parity stopbits : Nat} {readTimeout : Int}
    (h : (openPort d os name baud databits parity stopbits readTimeout).port ≠ none) :
    ∃ fd t0 t, os.openFile name = .ok fd ∧ isTTY os fd = true ∧ os.getTermios = .ok t0 ∧
      configure d t0 baud databits parity stopbits readTimeout = .ok t ∧
      os.setTermios = none ∧ os.setNonblock = none ∧
      openPort d os name baud databits parity stopbits readTimeout =
        { port := some { f := fd }, err := none,
          state := { FileState.opened1 with committed := some t, blocking := true } } := by
  rcases openPort_cases d os name baud databits parity stopbits readTimeout with
    ⟨e, _, hr⟩ | ⟨fd1, _, _, hr⟩ | ⟨fd1, e, _, _, _, hr⟩ | ⟨fd1, t1, e, _, _, _, _, hr⟩ |
    ⟨fd1, t1, t2, e, _, _, _, _, _, hr⟩ | ⟨fd1, t1, t2, e, _, _, _, _, _, _, hr⟩ | hr
  · rw [hr] at h; exact absurd rfl h
  · rw [hr] at h; exact absurd rfl h
  · rw [hr] at h; exact absurd rfl h
  · rw [hr] at h; exact absurd rfl h
  · rw [hr] at h; exact absurd rfl h
  · rw [hr] at h; exact absurd rfl h
  · exact hr

/-- Attributes are committed only after the open, the terminal check, the
fetch, the three validations and the commit itself succeeded. -/
theorem openPort_committed {d : Decls} {os : OSCalls} {name : String} {baud : Int}
    {databits parity stopbits : Nat} {readTimeout : Int} {t : Termios}
    (h : (openPort d os name baud databits parity stopbits readTimeout).state.committed =
      some t) :
    ∃ fd t0, os.openFile name = .ok fd ∧ isTTY os fd = true ∧ os.getTermios = .ok t0 ∧
      configure d t0 baud databits parity stopbits readTimeout = .ok t ∧
      os.setTermios = none := by
  rcases openPort_cases d os name baud databits parity stopbits readTimeout with
    ⟨e, _, hr⟩ | ⟨fd1, _, _, hr⟩ | ⟨fd1, e, _, _, _, hr⟩ | ⟨fd1, t1, e, _, _, _, _, hr⟩ |
    ⟨fd1, t1, t2, e, _, _, _, _, _, hr⟩ | ⟨fd1, t1, t2, e, ho, ht, hg, hc, hs, _, hr⟩ |
    ⟨fd1, t1, t2, ho, ht, hg, hc, hs, _, hr⟩
  all_goals rw [hr] at h
  all_goals first
    | (simp [FileState.init, FileState.opened1, FileState.close] at h; done)
    | (simp only [FileState.opened1, FileState.init, Option.some.injEq] at h
       subst h
       exact ⟨fd1, t1, ho, ht, hg, hc, hs⟩)

/-- Whether the attribute computation succeeds, and with which error it
fails, does not depend on the requested baud rate. -/
theorem configure_baud_irrelevant (d : Decls) (t0 : Termios) (baud baud' : Int)
    (databits parity stopbits : Nat) (readTimeout : Int) :
    (configure d t0 baud databits parity stopbits readTimeout).map (fun _ => ()) =
      (configure d t0 baud' databits parity stopbits readTimeout).map (fun _ => ()) := by
  unfold configure
  simp only
  rcases applyDataBits (baseCflag t0.Cflag) databits with e | c1
  · rfl
  simp only
  rcases applyParity d c1 parity with e | c2
  · rfl
  simp only
  rcases applyStopBits d c2 stopbits with e | c3
  · rfl
  rfl

/-- C9: the `Port` and the error returned by `openPort` are the same for every
baud value; any committed record has input and output speed equal to
`getBaudRate baud`; and with baud 999999, valid fields and successful
system calls `openPort` returns a `Port` and commits speeds `B9600`. -/
theorem openPort_baud (d : Decls) (os : OSCalls) (name : String) (baud : Int)
    (databits parity stopbits : Nat) (readTimeout : Int) :
    (∀ baud' : Int,
      (openPort d os name baud' databits parity stopbits readTimeout).port =
        (openPort d os name baud databits parity stopbits readTimeout).port ∧
      (openPort d os name baud' databits parity stopbits readTimeout).err =
        (openPort d os name baud databits parity stopbits readTimeout).err) ∧
    (∀ t, (openPort d os name baud databits parity stopbits readTimeout).state.committed =
        some t → t.Ispeed = getBaudRate baud ∧ t.Ospeed = getBaudRate baud) ∧
    (∀ fd t0, os.openFile name = .ok fd → isTTY os fd = true → os.getTermios = .ok t0 →
      os.setTermios = none → os.setNonblock = none → validDataBits databits →
      d.validParity parity → d.validStopBits stopbits →
      (openPort d os name 999999 databits parity stopbits readTimeout).port =
        some { f := fd } ∧
      (openPort d os name 999999 databits parity stopbits readTimeout).err = none ∧
      ∃ t, (openPort d os name 999999 databits parity stopbits readTimeout).state.committed =
          some t ∧ t.Ispeed = unix.B9600 ∧ t.Ospeed = unix.B9600) := by
  refine ⟨?_, ?_, ?_⟩
  · intro baud'
    unfold openPort
    rcases os.openFile name with e | fd
    · exact ⟨rfl, rfl⟩
    simp only
    rcases isTTY os fd with _ | _
    · exact ⟨rfl, rfl⟩
    simp only [Bool.not_true, Bool.false_eq_true, if_false]
    rcases os.getTermios with e | t0
    · exact ⟨rfl, rfl⟩
    simp only
    have key := configure_baud_irrelevant d t0 baud' baud databits parity stopbits readTimeout
    rcases hc' : configure d t0 baud' databits parity stopbits readTimeout with e' | t' <;>
      rcases hc : configure d t0 baud databits parity stopbits readTimeout with e | t <;>
      rw [hc, hc'] at key <;> simp only [Except.map] at key
    · cases key; exact ⟨rfl, rfl⟩
    · cases key
    · cases key
    · simp only
      rcases os.setTermios with _ | e
      swap
      · exact ⟨rfl, rfl⟩
      simp only
      rcases os.setNonblock with _ | e
      · exact ⟨rfl, rfl⟩
      · exact ⟨rfl, rfl⟩
  · intro t ht
    obtain ⟨fd, t0, -, -, -, hc, -⟩ := openPort_committed ht
    obtain ⟨c1, c2, -, -, -, -, -, -, hi, ho⟩ := configure_ok hc
    exact ⟨hi, ho⟩
  · intro fd t0 hopen htty hget hset hnb hdb hpa hsb
    obtain ⟨t, hc⟩ := (configure_isOk_iff d t0 999999 databits parity stopbits readTimeout).2
      ⟨hdb, hpa, hsb⟩
    have hr := openPort_of_configure_ok hopen htty hget hc
    obtain ⟨c1, c2, -, -, -, -, -, -, hi, ho⟩ := configure_ok hc
    have h96 : getBaudRate 999999 = unix.B9600 := by decide
    refine ⟨hr.2.2 hset hnb, ?_, t, hr.2.1 hset, hi.trans h96, ho.trans h96⟩
    rcases hr.1 with h | ⟨e, h⟩
    · exact h
    · have hp := hr.2.2 hset hnb
      have hne : (openPort d os name 999999 databits parity stopbits readTimeout).port ≠
          none := by rw [hp]; simp
      obtain ⟨fd', t0', t', -, -, -, -, -, -, hr'⟩ := openPort_success hne
      rw [hr']

/-- Instance of C9 on the sample device with baud 999999. -/
theorem openPort_baud_witness :
    sampleOS.openFile "/dev/cu.usbserial" = .ok 3 ∧ isTTY sampleOS 3 = true ∧
    sampleOS.getTermios = .ok sampleTermios ∧ sampleOS.setTermios = none ∧
    sampleOS.setNonblock = none ∧ validDataBits 8 ∧ sampleDecls.validParity 78 ∧
    sampleDecls.validStopBits 1 ∧
    ((openPort sampleDecls sampleOS "/dev/cu.usbserial" 999999 8 78 1 0).port =
        some { f := 3 } ∧
      (openPort sampleDecls sampleOS "/dev/cu.usbserial" 999999 8 78 1 0).err = none ∧
      ∃ t, (openPort sampleDecls sampleOS "/dev/cu.usbserial" 999999 8 78 1 0).state.committed =
          some t ∧ t.Ispeed = unix.B9600 ∧ t.Ospeed = unix.B9600) :=
  ⟨rfl, rfl, rfl, rfl, rfl, by decide, by decide, by decide,
   (openPort_baud sampleDecls sampleOS "/dev/cu.usbserial" 115200 8 78 1 0).2.2 3 sampleTermios
     rfl rfl rfl rfl rfl (by decide) (by decide) (by decide)⟩

/-- C8: after a successful `openPort` the committed record has `ICANON`,
`ECHO`, `ECHOE` and `ISIG` clear in the local flags and `OPOST` clear in the
output flags, and every other bit of these two words is as it was fetched. -/
theorem openPort_raw_mode (d : Decls) (os : OSCalls) (name : String) (baud : Int)
    (databits parity stopbits : Nat) (readTimeout : Int) (t0 : Termios)
    (hget : os.getTermios = .ok t0) (hL : t0.Lflag < 2 ^ 64) (hO : t0.Oflag < 2 ^ 64)
    (hport : (openPort d os name baud databits parity stopbits readTimeout).port ≠ none) :
    ∃ t, (openPort d os name baud databits parity stopbits readTimeout).state.committed =
        some t ∧
      t.Lflag &&& unix.ICANON = 0 ∧ t.Lflag &&& unix.ECHO = 0 ∧
      t.Lflag &&& unix.ECHOE = 0 ∧ t.Lflag &&& unix.ISIG = 0 ∧
      t.Oflag &&& unix.OPOST = 0 ∧
      (∀ i, (unix.ICANON ||| unix.ECHO ||| unix.ECHOE ||| unix.ISIG).testBit i = false →
        t.Lflag.testBit i = t0.Lflag.testBit i) ∧
      (∀ i, unix.OPOST.testBit i = false → t.Oflag.testBit i = t0.Oflag.testBit i) := by
  obtain ⟨fd, t1, t, -, -, hg, hc, -, -, hr⟩ := openPort_success hport
  rw [hget] at hg
  cases hg
  obtain ⟨c1, c2, -, -, -, -, hl, ho, -, -⟩ := configure_ok hc
  refine ⟨t, by rw [hr], ?_, ?_, ?_, ?_, ?_, ?_, ?_⟩
  · rw [hl]; exact clear_and_within _ (by decide) (by decide)
  · rw [hl]; exact clear_and_within _ (by decide) (by decide)
  · rw [hl]; exact clear_and_within _ (by decide) (by decide)
  · rw [hl]; exact clear_and_within _ (by decide) (by decide)
  · rw [ho]; exact clear_and_within _ (by decide) (by decide)
  · intro i hi
    rw [hl]
    exact testBit_clear_of_not_mem _ hL hi
  · intro i hi
    rw [ho]
    exact testBit_clear_of_not_mem _ hO hi

/-- Instance of C8 on the sample device, which is fetched in cooked mode. -/
theorem openPort_raw_mode_witness :
    sampleOS.getTermios = .ok sampleTermios ∧ sampleTermios.Lflag < 2 ^ 64 ∧
    sampleTermios.Oflag < 2 ^ 64 ∧
    (openPort sampleDecls sampleOS "/dev/cu.usbserial" 115200 8 78 1 0).port ≠ none ∧
    ∃ t, (openPort sampleDecls sampleOS "/dev/cu.usbserial" 115200 8 78 1 0).state.committed =
        some t ∧
      t.Lflag &&& unix.ICANON = 0 ∧ t.Lflag &&& unix.ECHO = 0 ∧
      t.Lflag &&& unix.ECHOE = 0 ∧ t.Lflag &&& unix.ISIG = 0 ∧
      t.Oflag &&& unix.OPOST = 0 ∧
      (∀ i, (unix.ICANON ||| unix.ECHO ||| unix.ECHOE ||| unix.ISIG).testBit i = false →
        t.Lflag.testBit i = sampleTermios.Lflag.testBit i) ∧
      (∀ i, unix.OPOST.testBit i = false →
        t.Oflag.testBit i = sampleTermios.Oflag.testBit i) :=
  ⟨rfl, by decide, by decide, by decide,
   openPort_raw_mode sampleDecls sampleOS "/dev/cu.usbserial" 115200 8 78 1 0 sampleTermios
     rfl (by decide) (by decide) (by decide)⟩

/-- C10: `openPort` returns either a `Port` and no error, or an error and no
`Port`; a `Port` is returned exactly when the open, the terminal check, the
fetch, the three validations, the commit and the switch to blocking mode all
succeed; and no attributes are committed when a validated field is out of
range or a validation error is returned. -/
theorem openPort_no_partial_success (d : Decls) (os : OSCalls) (name : String) (baud : Int)
    (databits parity stopbits : Nat) (readTimeout : Int) :
    (((openPort d os name baud databits parity stopbits readTimeout).port ≠ none ∧
        (openPort d os name baud databits parity stopbits readTimeout).err = none) ∨
      ((openPort d os name baud databits parity stopbits readTimeout).port = none ∧
        (openPort d os name baud databits parity stopbits readTimeout).err ≠ none)) ∧
    ((openPort d os name baud databits parity stopbits readTimeout).port ≠ none ↔
      ∃ fd t0, os.openFile name = .ok fd ∧ isTTY os fd = true ∧ os.getTermios = .ok t0 ∧
        validDataBits databits ∧ d.validParity parity ∧ d.validStopBits stopbits ∧
        os.setTermios = none ∧ os.setNonblock = none) ∧
    ((¬ validDataBits databits ∨ ¬ d.validParity parity ∨ ¬ d.validStopBits stopbits) →
      (openPort d os name baud databits parity stopbits readTimeout).state.committed = none) ∧
    (((openPort d os name baud databits parity stopbits readTimeout).err =
          some Error.ErrBadSize ∨
        (openPort d os name baud databits parity stopbits readTimeout).err =
          some Error.ErrBadParity ∨
        (openPort d os name baud databits parity stopbits readTimeout).err =
          some Error.ErrBadStopBits) →
      (openPort d os name baud databits parity stopbits readTimeout).state.committed =
        none) := by
  refine ⟨?_, ⟨?_, ?_⟩, ?_, ?_⟩
  · rcases openPort_cases d os name baud databits parity stopbits readTimeout with
      ⟨e, _, hr⟩ | ⟨fd1, _, _, hr⟩ | ⟨fd1, e, _, _, _, hr⟩ | ⟨fd1, t1, e, _, _, _, _, hr⟩ |
      ⟨fd1, t1, t2, e, _, _, _, _, _, hr⟩ | ⟨fd1, t1, t2, e, _, _, _, _, _, _, hr⟩ |
      ⟨fd1, t1, t2, _, _, _, _, _, _, hr⟩
    all_goals rw [hr]
    all_goals simp
  · intro hp
    obtain ⟨fd, t0, t, ho, ht, hg, hc, hs, hn, -⟩ := openPort_success hp
    obtain ⟨h1, h2, h3⟩ :=
      (configure_isOk_iff d t0 baud databits parity stopbits readTimeout).1 ⟨t, hc⟩
    exact ⟨fd, t0, ho, ht, hg, h1, h2, h3, hs, hn⟩
  · rintro ⟨fd, t0, ho, ht, hg, h1, h2, h3, hs, hn⟩
    obtain ⟨t, hc⟩ := (configure_isOk_iff d t0 baud databits parity stopbits readTimeout).2
      ⟨h1, h2, h3⟩
    rw [(openPort_of_configure_ok ho ht hg hc).2.2 hs hn]
    simp
  · intro hbad
    rcases hcm : (openPort d os name baud databits parity stopbits readTimeout).state.committed
      with _ | t
    · rfl
    · obtain ⟨fd, t0, -, -, -, hc, -⟩ := openPort_committed hcm
      obtain ⟨h1, h2, h3⟩ :=
        (configure_isOk_iff d t0 baud databits parity stopbits readTimeout).1 ⟨t, hc⟩
      rcases hbad with h | h | h
      · exact absurd h1 h
      · exact absurd h2 h
      · exact absurd h3 h
  · intro herr
    rcases hcm : (openPort d os name baud databits parity stopbits readTimeout).state.committed
      with _ | t
    · rfl
    · obtain ⟨fd, t0, ho, ht, hg, hc, -⟩ := openPort_committed hcm
      rcases (openPort_of_configure_ok ho ht hg hc).1 with h | ⟨e, h⟩ <;>
        rw [h] at herr <;> simp at herr

/-- Instance of C10 on the sample device: with nine data bits nothing is
committed, and with eight data bits a `Port` is returned. -/
theorem openPort_no_partial_success_witness :
    (openPort sampleDecls sampleOS "/dev/cu.usbserial" 115200 9 78 1 0).state.committed =
        none ∧
      (openPort sampleDecls sampleOS "/dev/cu.usbserial" 115200 8 78 1 0).port ≠ none :=
  ⟨(openPort_no_partial_success sampleDecls sampleOS "/dev/cu.usbserial" 115200 9 78 1
      0).2.2.1 (Or.inl (by decide)),
   (openPort_no_partial_success sampleDecls sampleOS "/dev/cu.usbserial" 115200 8 78 1
      0).2.1.2 ⟨3, sampleTermios, rfl, rfl, rfl, by decide, by decide, by decide, rfl, rfl⟩⟩

/-- The input-flag word is never written: what is committed is what was fetched. -/
theorem openPort_Iflag_unchanged {d : Decls} {os : OSCalls} {name : String} {baud : Int}
    {databits parity stopbits : Nat} {readTimeout : Int} {t0 t : Termios}
    (hget : os.getTermios = .ok t0)
    (h : (openPort d os name baud databits parity stopbits readTimeout).state.committed =
      some t) : t.Iflag = t0.Iflag := by
  obtain ⟨c1, c2, -, -, -, hi, -⟩ := configure_ok (openPort_committed_inv hget h)
  exact hi

/-- Every committed control-flag word has `CLOCAL` and `CREAD` set. -/
theorem openPort_local_receiver {d : Decls} {os : OSCalls} {name : String} {baud : Int}
    {databits parity stopbits : Nat} {readTimeout : Int} {t : Termios}
    (h : (openPort d os name baud databits parity stopbits readTimeout).state.committed =
      some t) :
    t.Cflag &&& (unix.CLOCAL ||| unix.CREAD) = unix.CLOCAL ||| unix.CREAD := by
  obtain ⟨fd, t0, -, -, -, hc, -⟩ := openPort_committed h
  obtain ⟨c1, c2, e1, e2, e3, -⟩ := configure_ok hc
  rw [applyStopBits_preserves e3 (by decide),
    applyParity_preserves e2 (by decide) (by decide) (by decide),
    applyDataBits_preserves e1 (by decide), baseCflag_and_CLOCAL_CREAD]

/-- When the descriptor was opened and an error is returned, the descriptor
has been closed exactly when the error is none of the three validation errors. -/
theorem openPort_closed_iff (d : Decls) (os : OSCalls) (name : String) (baud : Int)
    (databits parity stopbits : Nat) (readTimeout : Int)
    (hopened : (openPort d os name baud databits parity stopbits readTimeout).state.opened =
      true)
    (herr : (openPort d os name baud databits parity stopbits readTimeout).err ≠ none) :
    (openPort d os name baud databits parity stopbits readTimeout).state.closed = true ↔
      ((openPort d os name baud databits parity stopbits readTimeout).err ≠
          some Error.ErrBadSize ∧
        (openPort d os name baud databits parity stopbits readTimeout).err ≠
          some Error.ErrBadParity ∧
        (openPort d os name baud databits parity stopbits readTimeout).err ≠
          some Error.ErrBadStopBits) := by
  rcases openPort_cases d os name baud databits parity stopbits readTimeout with
    ⟨e, _, hr⟩ | ⟨fd1, _, _, hr⟩ | ⟨fd1, e, _, _, _, hr⟩ | ⟨fd1, t1, e, _, _, _, hc, hr⟩ |
    ⟨fd1, t1, t2, e, _, _, _, _, _, hr⟩ | ⟨fd1, t1, t2, e, _, _, _, _, _, _, hr⟩ |
    ⟨fd1, t1, t2, _, _, _, _, _, _, hr⟩
  · rw [hr] at hopened; simp [FileState.init] at hopened
  · rw [hr]; simp [FileState.close]
  · rw [hr]; simp [FileState.close]
  · rw [hr]
    rcases configure_error hc with h | h | h <;>
      simp [h.1, FileState.opened1, FileState.init]
  · rw [hr]; simp [FileState.close]
  · rw [hr]; simp
  · rw [hr] at herr; exact absurd rfl herr

/-- C5 (behaviour of the code): on the sample device, whose fetched input
flags have `BRKINT`, `ICRNL` and `IXON` set, `openPort` succeeds and the
committed input flags still have these three bits set. -/
theorem openPort_input_flags_kept :
    (openPort sampleDecls sampleOS "/dev/cu.usbserial" 115200 8 78 1 0).port =
      some { f := 3 } ∧
    (openPort sampleDecls sampleOS "/dev/cu.usbserial" 115200 8 78 1 0).err = none ∧
    (openPort sampleDecls sampleOS "/dev/cu.usbserial" 115200 8 78 1 0).state.committed.map
        (fun t => t.Iflag &&& (unix.BRKINT ||| unix.ICRNL ||| unix.INPCK ||| unix.ISTRIP |||
          unix.IXOFF ||| unix.IXON ||| unix.PARMRK)) =
      some (unix.BRKINT ||| unix.ICRNL ||| unix.IXON) := by
  decide

/-- C6 (behaviour of the code): on the sample device, a bad parity value and
a bad stop-bits value each make `openPort` return its validation error with
the descriptor opened and not closed. -/
theorem openPort_validation_keeps_descriptor :
    ((openPort sampleDecls sampleOS "/dev/cu.usbserial" 115200 8 77 1 0).err =
        some Error.ErrBadParity ∧
      (openPort sampleDecls sampleOS "/dev/cu.usbserial" 115200 8 77 1 0).state.opened =
        true ∧
      (openPort sampleDecls sampleOS "/dev/cu.usbserial" 115200 8 77 1 0).state.closed =
        false) ∧
    ((openPort sampleDecls sampleOS "/dev/cu.usbserial" 115200 8 78 15 0).err =
        some Error.ErrBadStopBits ∧
      (openPort sampleDecls sampleOS "/dev/cu.usbserial" 115200 8 78 15 0).state.opened =
        true ∧
      (openPort sampleDecls sampleOS "/dev/cu.usbserial" 115200 8 78 15 0).state.closed =
        false) := by
  decide

/-- C7 (behaviour of the code): `Sync` fails on descriptor 3, yet `Flush` on
the port of descriptor 3 returns no error, whereas `Close` on the same port
returns the error of a failing `f.Close()`. -/
theorem Flush_swallows_sync_failure :
    failingSync 3 = some 5 ∧ Port.Flush failingSync { f := 3 } = none ∧
      Port.Close failingClose { f := 3 } = some (Error.os 9) :=
  ⟨rfl, rfl, rfl⟩

/-- Whatever `Sync` returns, `Flush` returns no error. -/
theorem Flush_result (sync : Nat → Option Nat) (p : Port) : Port.Flush sync p = none :=
  rfl

end Serial
